import Mathlib

/-!
Verification of the agent-board task lifecycle engine and persistent store.

The development shallowly embeds the TypeScript sources:
* `src/types.ts`     — the `Task` data model (`TaskColumn`, `TaskPriority`, `Comment`,
  `NextTask`, `Task`);
* `src/store.ts`     — the task-collection operations `getTask`, `createTask`,
  `updateTask`, `addComment` (the collection is modelled as the pure state
  `List Task`; the per-file mutex and the on-disk JSON encoding are not needed
  for the sequential properties proved here) and `readJSON`, whose parse step
  is modelled by an `Option (List Task)` argument (`none` = malformed file);
* `src/services.ts`  — the lifecycle engine `moveTask`; the wall clock `now()`
  is a `Nat` millisecond parameter threaded through each call, and `generateId`
  is a `String` parameter for the one id a `moveTask` call can mint;
* `src/routes.ts`    — the dependency-cycle predicate `hasCycle`.

Timestamps are `Nat` milliseconds; the TypeScript code stores ISO strings and
compares them through `Date.getTime`, which is order- and difference-preserving,
so nothing is lost for the duration/ordering properties.
-/

namespace AgentBoard

/-- The six lifecycle columns, `src/types.ts` line 18. -/
inductive TaskColumn where
  | backlog | todo | doing | review | done | failed
deriving DecidableEq, Repr

/-- The four priorities, `src/types.ts` line 19. -/
inductive TaskPriority where
  | low | medium | high | urgent
deriving DecidableEq, Repr

/-- The string each column serializes to (used inside error messages). -/
def columnName : TaskColumn → String
  | .backlog => "backlog"
  | .todo => "todo"
  | .doing => "doing"
  | .review => "review"
  | .done => "done"
  | .failed => "failed"

/-- A task comment, `src/types.ts` lines 12-16.  `atTime` models the `at`
timestamp field (`at` is reserved in Lean). -/
structure Comment where
  author : String
  text : String
  atTime : Nat
deriving DecidableEq, Repr

/-- The chained-task template, `src/types.ts` lines 21-27. -/
structure NextTask where
  title : String
  description : Option String
  assignee : String
  priority : Option TaskPriority
  tags : Option (List String)
deriving DecidableEq, Repr

/-- A task, `src/types.ts` lines 29-58.  Optional TypeScript fields are
`Option`s; `requiresReview` is used only through JavaScript truthiness, so the
absent case collapses into `false`. -/
structure Task where
  id : String
  projectId : String
  title : String
  description : String
  status : TaskColumn
  column : TaskColumn
  assignee : String
  createdBy : String
  priority : TaskPriority
  tags : List String
  dependencies : List String
  subtasks : List String
  comments : List Comment
  nextTask : Option NextTask
  parentTaskId : Option String
  deadline : Option String
  inputPath : Option String
  outputPath : Option String
  startedAt : Option Nat
  completedAt : Option Nat
  failedAt : Option Nat
  retryCount : Option Nat
  maxRetries : Option Nat
  requiresReview : Bool
  durationMs : Option Int
  createdAt : Nat
  updatedAt : Nat
deriving DecidableEq, Repr

/-- A `Partial<Task>` update payload.  An outer `none` means the key is absent
from the payload (the stored value is kept); for fields that are themselves
optional on `Task`, `some none` means the key is present with value
`undefined`, which clears the stored field (as `failedAt: undefined` does in
the auto-retry payload, `src/services.ts` line 78). -/
structure TaskUpdate where
  title : Option String := none
  description : Option String := none
  assignee : Option String := none
  priority : Option TaskPriority := none
  tags : Option (List String) := none
  column : Option TaskColumn := none
  status : Option TaskColumn := none
  nextTask : Option (Option NextTask) := none
  requiresReview : Option Bool := none
  dependencies : Option (List String) := none
  deadline : Option (Option String) := none
  inputPath : Option (Option String) := none
  outputPath : Option (Option String) := none
  startedAt : Option (Option Nat) := none
  completedAt : Option (Option Nat) := none
  failedAt : Option (Option Nat) := none
  retryCount : Option (Option Nat) := none
  maxRetries : Option (Option Nat) := none
  durationMs : Option (Option Int) := none
deriving DecidableEq, Repr

/-- The object spread `{ ...tasks[idx], ...updates, updatedAt: now }` of
`src/store.ts` line 194. -/
def mergeUpdates (t : Task) (u : TaskUpdate) (tNow : Nat) : Task :=
  { t with
    title := u.title.getD t.title
    description := u.description.getD t.description
    assignee := u.assignee.getD t.assignee
    priority := u.priority.getD t.priority
    tags := u.tags.getD t.tags
    column := u.column.getD t.column
    status := u.status.getD t.status
    nextTask := u.nextTask.getD t.nextTask
    requiresReview := u.requiresReview.getD t.requiresReview
    dependencies := u.dependencies.getD t.dependencies
    deadline := u.deadline.getD t.deadline
    inputPath := u.inputPath.getD t.inputPath
    outputPath := u.outputPath.getD t.outputPath
    startedAt := u.startedAt.getD t.startedAt
    completedAt := u.completedAt.getD t.completedAt
    failedAt := u.failedAt.getD t.failedAt
    retryCount := u.retryCount.getD t.retryCount
    maxRetries := u.maxRetries.getD t.maxRetries
    durationMs := u.durationMs.getD t.durationMs
    updatedAt := tNow }

/-- The body of `updateTask`, `src/store.ts` lines 194-202: merge the payload,
then re-derive the canonical column/status pair — a supplied `column` drives
`status`; a supplied `status` alone drives `column`. -/
def applyTaskUpdate (t : Task) (u : TaskUpdate) (tNow : Nat) : Task :=
  let merged := mergeUpdates t u tNow
  match u.column with
  | some c => { merged with status := c }
  | none =>
    match u.status with
    | some s => { merged with column := s, status := s }
    | none => merged

/-- `getTask`, `src/store.ts` lines 175-177 (`find` by id). -/
def getTask (tasks : List Task) (id : String) : Option Task :=
  tasks.find? (fun t => t.id = id)

/-- `createTask`, `src/store.ts` lines 179-187: derive `status` from `column`,
then push onto the collection.  Returns the created task and the new state. -/
def createTask (tasks : List Task) (task : Task) : Task × List Task :=
  let t := { task with status := task.column }
  (t, tasks ++ [t])

/-- `updateTask`, `src/store.ts` lines 189-208: replace the first task whose
id matches by the merged record; `none` when the id is absent.  Returns the
updated task (the source's `result`) and the new collection. -/
def updateTask (tasks : List Task) (id : String) (u : TaskUpdate) (tNow : Nat) :
    Option Task × List Task :=
  match tasks with
  | [] => (none, [])
  | t :: ts =>
    if t.id = id then
      (some (applyTaskUpdate t u tNow), applyTaskUpdate t u tNow :: ts)
    else
      let r := updateTask ts id u tNow
      (r.1, t :: r.2)

/-- `addComment`, `src/store.ts` lines 222-233: push a comment (with a
server-generated timestamp) on the first task whose id matches and bump its
`updatedAt`. -/
def addComment (tasks : List Task) (taskId : String) (author text : String) (tNow : Nat) :
    Option Task × List Task :=
  match tasks with
  | [] => (none, [])
  | t :: ts =>
    if t.id = taskId then
      let t2 := { t with comments := t.comments ++ [⟨author, text, tNow⟩], updatedAt := tNow }
      (some t2, t2 :: ts)
    else
      let r := addComment ts taskId author text tNow
      (r.1, t :: r.2)

/-- `readJSON`, `src/store.ts` lines 46-58: the JSON parse of an existing
collection file is modelled by `parsed` (`none` = malformed file, the
`JSON.parse` call throws).  The `catch` clause returns the fallback, so a
malformed file is silently replaced by the fallback value. -/
def readJSON (parsed : Option (List Task)) (fallback : List Task) : List Task :=
  match parsed with
  | some data => data
  | none => fallback

/-- `getTasks` with no filters against the disk state, `src/store.ts`
lines 161-173 (the fallback passed by the source is `[]`). -/
def getTasksFromDisk (parsed : Option (List Task)) : List Task :=
  readJSON parsed []

/-- `getTask` against the disk state, `src/store.ts` lines 175-177. -/
def getTaskFromDisk (parsed : Option (List Task)) (id : String) : Option Task :=
  (readJSON parsed []).find? (fun t => t.id = id)

/-- The result of a successful `moveTask`, or one of its error returns
(`src/services.ts` lines 5-10 and the error objects).  `requiresReview` is the
machine-readable flag carried by the quality-gate error. -/
inductive MoveOutcome where
  | ok (task : Task) (retried : Bool) (chainedTask : Option Task)
  | err (msg : String) (requiresReview : Bool)
deriving DecidableEq, Repr

/-- Whether a `moveTask` call succeeded. -/
def MoveOutcome.isOk : MoveOutcome → Bool
  | .ok _ _ _ => true
  | .err _ _ => false

/-- The `retried` flag of a successful move (`false` on an error). -/
def MoveOutcome.retriedFlag : MoveOutcome → Bool
  | .ok _ r _ => r
  | .err _ _ => false

/-- The blocker scan of the dependency gate, `src/services.ts` lines 23-29:
each dependency that is stored and not yet `done` contributes an
`{id, title, column}` tuple; a dependency id with no stored task is skipped. -/
def blockersFor (tasks : List Task) (deps : List String) :
    List (String × String × TaskColumn) :=
  deps.filterMap (fun depId =>
    match getTask tasks depId with
    | some dep => if dep.column ≠ TaskColumn.done then some (dep.id, dep.title, dep.column) else none
    | none => none)

/-- The dependency-gate error message, `src/services.ts` line 32. -/
def blockedMsg (blockers : List (String × String × TaskColumn)) : String :=
  "Blocked by unresolved dependencies: " ++
    String.intercalate ", "
      (blockers.map (fun b =>
        "\"" ++ b.2.1 ++ "\" (" ++ b.1 ++ ", status: " ++ columnName b.2.2 ++ ")"))

/-- The quality-gate error message, `src/services.ts` line 40. -/
def qualityGateMsg : String :=
  "Quality gate: this task requires review before done. Move to \x27review\x27 first."

/-- The auto-retry system comment, `src/services.ts` line 83. -/
def retryMsg (retryCount maxRetries : Nat) : String :=
  "Auto-retry " ++ toString (retryCount + 1) ++ "/" ++ toString maxRetries ++
    ": task moved back to todo after failure."

/-- The retry-exhaustion system comment, `src/services.ts` line 89. -/
def exhaustMsg (maxRetries : Nat) : String :=
  "Max retries (" ++ toString maxRetries ++ ") exhausted. Task requires manual intervention."

/-- The dependents-notification comment, `src/services.ts` line 101. -/
def depDoneMsg (updated : Task) : String :=
  "Dependency resolved: \"" ++ updated.title ++ "\" (" ++ updated.id ++ ") is now done."

/-- The default description of a chained task, `src/services.ts` line 115. -/
def chainDescMsg (updated : Task) : String :=
  "Chained from: " ++ updated.title ++ " (" ++ updated.id ++ ")"

/-- The seed comment of a chained task, `src/services.ts` line 126. -/
def chainSeedMsg (updated : Task) : String :=
  "Auto-created from completed task \"" ++ updated.title ++ "\" (" ++ updated.id ++ ")"

/-- JavaScript `a || b` on an optional string: the empty string is falsy. -/
def jsOrStr (a : Option String) (b : String) : String :=
  match a with
  | some s => if s = "" then b else s
  | none => b

/-- The update payload assembled by `moveTask`, `src/services.ts` lines 45-64:
the new column, plus `startedAt` on a first move into `doing`, `completedAt`
and (when `startedAt` exists) `durationMs` on a move into `done`, and
`failedAt` on a move into `failed`. -/
def moveUpdates (column : TaskColumn) (current : Task) (tNow : Nat) : TaskUpdate :=
  { column := some column
    startedAt :=
      if column = TaskColumn.doing ∧ current.startedAt = none then some (some tNow) else none
    completedAt := if column = TaskColumn.done then some (some tNow) else none
    durationMs :=
      if column = TaskColumn.done then
        match current.startedAt with
        | some s => some (some ((tNow : Int) - (s : Int)))
        | none => none
      else none
    failedAt := if column = TaskColumn.failed then some (some tNow) else none }

/-- The chained task synthesized from a `nextTask` template,
`src/services.ts` lines 111-132. -/
def chainedFrom (updated : Task) (nt : NextTask) (newId : String) (tNow : Nat) : Task :=
  { id := newId
    projectId := updated.projectId
    title := nt.title
    description := jsOrStr nt.description (chainDescMsg updated)
    status := TaskColumn.todo
    column := TaskColumn.todo
    assignee := nt.assignee
    createdBy := updated.assignee
    priority := nt.priority.getD updated.priority
    tags := nt.tags.getD updated.tags
    dependencies := []
    subtasks := []
    comments := [⟨"system", chainSeedMsg updated, tNow⟩]
    nextTask := none
    parentTaskId := some updated.id
    deadline := none
    inputPath := none
    outputPath := none
    startedAt := none
    completedAt := none
    failedAt := none
    retryCount := none
    maxRetries := none
    requiresReview := false
    durationMs := none
    createdAt := tNow
    updatedAt := tNow }

/-- `moveTask`, `src/services.ts` lines 14-137.  `tNow` stands for the
`now()` calls of the move and `newId` for the single `generateId` a call can
perform.  The `!column` and `VALID_COLUMNS.includes` checks of lines 15-16 are
vacuous for a well-typed `TaskColumn` argument. -/
def moveTask (tasks : List Task) (taskId : String) (column : TaskColumn)
    (tNow : Nat) (newId : String) : MoveOutcome × List Task :=
  match getTask tasks taskId with
  | none => (MoveOutcome.err "Task not found" false, tasks)
  | some current =>
    -- Dependency gate (lines 22-35); the `dependencies.length > 0` guard is
    -- subsumed: an empty dependency list yields no blockers.
    let blockers :=
      if column = TaskColumn.doing then blockersFor tasks current.dependencies else []
    if 0 < blockers.length then
      (MoveOutcome.err (blockedMsg blockers) false, tasks)
    -- Quality gate (lines 38-43)
    else if column = TaskColumn.done ∧ current.requiresReview = true ∧
        current.column ≠ TaskColumn.review then
      (MoveOutcome.err qualityGateMsg true, tasks)
    else
      match updateTask tasks taskId (moveUpdates column current tNow) tNow with
      | (none, ts1) => (MoveOutcome.err "Task not found" false, ts1)
      | (some updated, ts1) =>
        -- Auto-retry (lines 69-92)
        let rc := updated.retryCount.getD 0
        let mr := updated.maxRetries.getD 2
        let afterRetry : Bool × List Task :=
          if column = TaskColumn.failed then
            if rc < mr then
              let tsA := (updateTask ts1 updated.id
                { column := some TaskColumn.todo
                  retryCount := some (some (rc + 1))
                  failedAt := some none } tNow).2
              (true, (addComment tsA updated.id "system" (retryMsg rc mr) tNow).2)
            else
              (false, (addComment ts1 updated.id "system" (exhaustMsg mr) tNow).2)
          else (false, ts1)
        let retried := afterRetry.1
        let ts2 := afterRetry.2
        -- Auto-notify dependents (lines 94-105)
        let ts3 :=
          if column = TaskColumn.done then
            ((ts2.filter (fun t => decide (taskId ∈ t.dependencies))).map (fun t => t.id)).foldl
              (fun acc depTaskId =>
                (addComment acc depTaskId "system" (depDoneMsg updated) tNow).2) ts2
          else ts2
        -- Auto-chain (lines 107-134)
        match (if column = TaskColumn.done then updated.nextTask else none) with
        | some nt =>
          let r := createTask ts3 (chainedFrom updated nt newId tNow)
          (MoveOutcome.ok updated retried (some r.1), r.2)
        | none => (MoveOutcome.ok updated retried none, ts3)

/-- `hasCycle`'s worklist loop, `src/routes.ts` lines 103-119: pop an id; the
target id means a cycle; a visited id is skipped; an unvisited stored id is
marked visited and its dependencies are pushed (the JavaScript loop pushes them
in order onto a LIFO stack, hence `reverse`); an unvisited missing id is a
leaf.  The `visited` set is a list queried by membership. -/
def hasCycleAux (tasks : List Task) (taskId : String)
    (visited : List String) (stack : List String) : Bool :=
  match stack with
  | [] => false
  | current :: rest =>
    if current = taskId then true
    else if hv : current ∈ visited then hasCycleAux tasks taskId visited rest
    else
      match h2 : getTask tasks current with
      | some t => hasCycleAux tasks taskId (current :: visited) (t.dependencies.reverse ++ rest)
      | none => hasCycleAux tasks taskId (current :: visited) rest
termination_by (((tasks.map Task.id).toFinset \ visited.toFinset).card, stack.length)
decreasing_by
  · exact Prod.Lex.right _ (Nat.lt_succ_self _)
  · apply Prod.Lex.left
    have hid : t.id = current := by
      have := List.find?_some h2
      simpa using this
    have hmem : current ∈ (tasks.map Task.id).toFinset := by
      rw [List.mem_toFinset, List.mem_map]
      exact ⟨t, List.mem_of_find?_eq_some h2, hid⟩
    have hnv : current ∉ visited.toFinset := by
      rw [List.mem_toFinset]; exact hv
    rw [List.toFinset_cons, Finset.sdiff_insert]
    exact Finset.card_erase_lt_of_mem (Finset.mem_sdiff.mpr ⟨hmem, hnv⟩)
  · have hsub : (tasks.map Task.id).toFinset \ (current :: visited).toFinset ⊆
        (tasks.map Task.id).toFinset \ visited.toFinset := by
      rw [List.toFinset_cons]
      exact Finset.sdiff_subset_sdiff (le_refl _) (Finset.subset_insert _ _)
    rcases lt_or_eq_of_le (Finset.card_le_card hsub) with hlt | heq
    · exact Prod.Lex.left _ _ hlt
    · rw [heq]; exact Prod.Lex.right _ (Nat.lt_succ_self _)

/-- `hasCycle`, `src/routes.ts` lines 103-119: the stack starts as a copy of
the proposed dependency list (`pop` takes the last element, so the list is
reversed into the head-is-top representation). -/
def hasCycle (tasks : List Task) (taskId : String) (dependencies : List String) : Bool :=
  hasCycleAux tasks taskId [] dependencies.reverse

/-- One dependency step: `b` is listed among the stored dependencies of `a`
(resolved through `getTask`, so a missing id steps nowhere). -/
def DepStep (tasks : List Task) (a b : String) : Prop :=
  ∃ t, getTask tasks a = some t ∧ b ∈ t.dependencies

/-- Transitive reachability along stored dependency lists. -/
def Reaches (tasks : List Task) (a b : String) : Prop :=
  Relation.ReflTransGen (DepStep tasks) a b

/-! Derived forms of a task after each kind of move.  Each is proved equal to
the state `moveTask` actually writes (`moveTask_doing_eq` and friends below);
they are a convenient spelling of the composition of `applyTaskUpdate` and
`addComment` steps the engine performs, not independent models. -/

/-- The task as persisted by a move into `doing`: a first such move stamps
`startedAt`, later ones keep the existing value. -/
def doingTask (t : Task) (n : Nat) : Task :=
  { t with
    column := TaskColumn.doing
    status := TaskColumn.doing
    startedAt := some (t.startedAt.getD n)
    updatedAt := n }

/-- The snapshot written by a move into `failed` (and returned as the `task`
field of the move result): `failedAt` stamped, `retryCount` untouched. -/
def afterFail (t : Task) (n : Nat) : Task :=
  { t with
    column := TaskColumn.failed
    status := TaskColumn.failed
    failedAt := some n
    updatedAt := n }

/-- The stored task after an auto-retry: back to `todo`, `retryCount`
incremented, `failedAt` cleared, the attempt comment appended. -/
def retriedTask (t : Task) (n : Nat) : Task :=
  { t with
    column := TaskColumn.todo
    status := TaskColumn.todo
    failedAt := none
    retryCount := some (t.retryCount.getD 0 + 1)
    comments := t.comments ++
      [⟨"system", retryMsg (t.retryCount.getD 0) (t.maxRetries.getD 2), n⟩]
    updatedAt := n }

/-- The stored task after an exhausted failure: left in `failed` with the
exhaustion comment appended. -/
def exhaustedTask (t : Task) (n : Nat) : Task :=
  { t with
    column := TaskColumn.failed
    status := TaskColumn.failed
    failedAt := some n
    comments := t.comments ++ [⟨"system", exhaustMsg (t.maxRetries.getD 2), n⟩]
    updatedAt := n }

/-- The task as persisted by a move into `done`: `completedAt` stamped and,
when `startedAt` exists, `durationMs` computed. -/
def doneTask (t : Task) (n : Nat) : Task :=
  { t with
    column := TaskColumn.done
    status := TaskColumn.done
    completedAt := some n
    durationMs :=
      match t.startedAt with
      | some s => some ((n : Int) - (s : Int))
      | none => t.durationMs
    updatedAt := n }

/-- A store call of the kind claim C3 quantifies over: a `createTask` or an
`updateTask` (`n` is the `updatedAt` timestamp the update stamps). -/
inductive StoreOp where
  | create (t : Task)
  | update (id : String) (u : TaskUpdate) (n : Nat)

/-- Run one store call against the collection. -/
def applyOp (tasks : List Task) : StoreOp → List Task
  | .create t => (createTask tasks t).2
  | .update id u n => (updateTask tasks id u n).2

/-- The at-rest invariant of `src/store.ts`: every stored task's mirrored
`status` equals its canonical `column`. -/
def ColumnStatusInv (tasks : List Task) : Prop :=
  ∀ t ∈ tasks, t.status = t.column

/-! Concrete inputs used by the witness theorems. -/

/-- A fully-specified sample task; witness stores override single fields. -/
def baseTask : Task :=
  { id := "T"
    projectId := "p1"
    title := "Task T"
    description := ""
    status := TaskColumn.backlog
    column := TaskColumn.backlog
    assignee := "a"
    createdBy := "u"
    priority := TaskPriority.medium
    tags := []
    dependencies := []
    subtasks := []
    comments := []
    nextTask := none
    parentTaskId := none
    deadline := none
    inputPath := none
    outputPath := none
    startedAt := none
    completedAt := none
    failedAt := none
    retryCount := some 0
    maxRetries := some 2
    requiresReview := false
    durationMs := none
    createdAt := 0
    updatedAt := 0 }

/-- A task `A` blocked on `d2`, which is stored and still in `todo`. -/
def exD2 : Task := { baseTask with id := "d2", column := TaskColumn.todo, status := TaskColumn.todo }

/-- See `exD2`. -/
def exA : Task := { baseTask with id := "A", dependencies := ["d2"] }

/-- Store for the blocked half of the dependency-gate witness. -/
def exStoreBlocked : List Task := [exD2, exA]

/-- The same pair after `d2` reached `done`. -/
def exD2done : Task := { baseTask with id := "d2", column := TaskColumn.done, status := TaskColumn.done }

/-- Store for the unblocked half of the dependency-gate witness. -/
def exStoreDone : List Task := [exD2done, exA]

/-- A task whose only dependency id has no stored task. -/
def exGhostTask : Task := { baseTask with id := "A", dependencies := ["ghost"] }

/-- Store showing a missing dependency is not a blocker. -/
def exStoreGhost : List Task := [exGhostTask]

/-- A review-requiring task currently in `doing`. -/
def exReviewTask : Task :=
  { baseTask with
    column := TaskColumn.doing
    status := TaskColumn.doing
    requiresReview := true }

/-- Store for the quality-gate witness. -/
def exStoreReview : List Task := [exReviewTask]

/-- The same task once it sits in `review`. -/
def exReviewTask2 : Task :=
  { baseTask with
    column := TaskColumn.review
    status := TaskColumn.review
    requiresReview := true }

/-- Store for the review-to-done half of the quality-gate witness. -/
def exStoreReview2 : List Task := [exReviewTask2]

/-- A `nextTask` template used by the chaining witness. -/
def exNext : NextTask :=
  { title := "Child"
    description := none
    assignee := "b"
    priority := none
    tags := none }

/-- A task in `doing` carrying the chaining template. -/
def exChainTask : Task :=
  { baseTask with
    column := TaskColumn.doing
    status := TaskColumn.doing
    nextTask := some exNext }

/-- A plain `todo` task used by the retry and duration witnesses. -/
def exTodoTask : Task := { baseTask with column := TaskColumn.todo, status := TaskColumn.todo }

end AgentBoard

namespace AgentBoard

/-! ### Locality of the store operations

`find`/`findIndex` take the first id match, so an operation on a task with no
id-clash in the prefix acts exactly on that task and leaves the rest alone. -/

theorem getTask_append_cons (pre post : List Task) (t : Task) (id : String)
    (hpre : ∀ x ∈ pre, x.id ≠ id) (ht : t.id = id) :
    getTask (pre ++ t :: post) id = some t := by
  induction pre with
  | nil =>
    simp only [List.nil_append, getTask]
    exact List.find?_cons_of_pos _ (by simp [ht])
  | cons x xs ih =>
    simp only [List.cons_append, getTask] at ih ⊢
    rw [List.find?_cons_of_neg _ (by simp [hpre x (List.mem_cons_self x xs)])]
    exact ih (fun y hy => hpre y (List.mem_cons_of_mem x hy))

theorem updateTask_append_cons (pre post : List Task) (t : Task) (id : String)
    (u : TaskUpdate) (n : Nat) (hpre : ∀ x ∈ pre, x.id ≠ id) (ht : t.id = id) :
    updateTask (pre ++ t :: post) id u n =
      (some (applyTaskUpdate t u n), pre ++ applyTaskUpdate t u n :: post) := by
  induction pre with
  | nil => simp [updateTask, ht]
  | cons x xs ih =>
    have hx : ¬ x.id = id := hpre x (List.mem_cons_self x xs)
    simp only [List.cons_append, updateTask, hx, if_false, List.append_eq, eq_self_iff_true]
    rw [ih (fun y hy => hpre y (List.mem_cons_of_mem x hy))]

theorem addComment_append_cons (pre post : List Task) (t : Task) (id : String)
    (author text : String) (n : Nat) (hpre : ∀ x ∈ pre, x.id ≠ id) (ht : t.id = id) :
    addComment (pre ++ t :: post) id author text n =
      (some { t with comments := t.comments ++ [⟨author, text, n⟩], updatedAt := n },
       pre ++ { t with comments := t.comments ++ [⟨author, text, n⟩], updatedAt := n } :: post) := by
  induction pre with
  | nil => simp [addComment, ht]
  | cons x xs ih =>
    have hx : ¬ x.id = id := hpre x (List.mem_cons_self x xs)
    simp only [List.cons_append, addComment, hx, if_false, List.append_eq, eq_self_iff_true]
    rw [ih (fun y hy => hpre y (List.mem_cons_of_mem x hy))]

theorem updateTask_fst (tasks : List Task) (id : String) (u : TaskUpdate) (n : Nat) :
    (updateTask tasks id u n).1 = (getTask tasks id).map (fun x => applyTaskUpdate x u n) := by
  induction tasks with
  | nil => simp [updateTask, getTask]
  | cons x xs ih =>
    by_cases hx : x.id = id
    · simp [updateTask, getTask, hx, List.find?_cons_of_pos]
    · rw [getTask, List.find?_cons_of_neg _ (by simp [hx])]
      simp only [updateTask, hx, if_neg]
      simpa [getTask] using ih

/-! ### The update payloads `moveTask` writes, per target column -/

theorem applyTaskUpdate_failed (t : Task) (n : Nat) :
    applyTaskUpdate t (moveUpdates TaskColumn.failed t n) n = afterFail t n := rfl

theorem applyTaskUpdate_doing (t : Task) (n : Nat) :
    applyTaskUpdate t (moveUpdates TaskColumn.doing t n) n = doingTask t n := by
  simp only [applyTaskUpdate, mergeUpdates, moveUpdates, doingTask]
  cases t.startedAt <;> simp

theorem applyTaskUpdate_done (t : Task) (n : Nat) :
    applyTaskUpdate t (moveUpdates TaskColumn.done t n) n = doneTask t n := by
  simp only [applyTaskUpdate, mergeUpdates, moveUpdates, doneTask]
  cases t.startedAt <;> simp

theorem applyTaskUpdate_retry (t : Task) (n rc : Nat) :
    applyTaskUpdate t
      { column := some TaskColumn.todo, retryCount := some (some (rc + 1)), failedAt := some none } n =
      { t with column := TaskColumn.todo, status := TaskColumn.todo, retryCount := some (rc + 1), failedAt := none, updatedAt := n } := rfl

/-! ### Field-level view of the derived task forms -/

@[simp] theorem doingTask_id (t : Task) (n : Nat) : (doingTask t n).id = t.id := rfl

@[simp] theorem doingTask_projectId (t : Task) (n : Nat) : (doingTask t n).projectId = t.projectId := rfl

@[simp] theorem doingTask_title (t : Task) (n : Nat) : (doingTask t n).title = t.title := rfl

@[simp] theorem doingTask_description (t : Task) (n : Nat) : (doingTask t n).description = t.description := rfl

@[simp] theorem doingTask_assignee (t : Task) (n : Nat) : (doingTask t n).assignee = t.assignee := rfl

@[simp] theorem doingTask_priority (t : Task) (n : Nat) : (doingTask t n).priority = t.priority := rfl

@[simp] theorem doingTask_tags (t : Task) (n : Nat) : (doingTask t n).tags = t.tags := rfl

@[simp] theorem doingTask_dependencies (t : Task) (n : Nat) : (doingTask t n).dependencies = t.dependencies := rfl

@[simp] theorem doingTask_comments (t : Task) (n : Nat) : (doingTask t n).comments = t.comments := rfl

@[simp] theorem doingTask_nextTask (t : Task) (n : Nat) : (doingTask t n).nextTask = t.nextTask := rfl

@[simp] theorem doingTask_parentTaskId (t : Task) (n : Nat) : (doingTask t n).parentTaskId = t.parentTaskId := rfl

@[simp] theorem doingTask_requiresReview (t : Task) (n : Nat) : (doingTask t n).requiresReview = t.requiresReview := rfl

@[simp] theorem doingTask_startedAt (t : Task) (n : Nat) : (doingTask t n).startedAt = some (t.startedAt.getD n) := rfl

@[simp] theorem doingTask_completedAt (t : Task) (n : Nat) : (doingTask t n).completedAt = t.completedAt := rfl

@[simp] theorem doingTask_failedAt (t : Task) (n : Nat) : (doingTask t n).failedAt = t.failedAt := rfl

@[simp] theorem doingTask_retryCount (t : Task) (n : Nat) : (doingTask t n).retryCount = t.retryCount := rfl

@[simp] theorem doingTask_maxRetries (t : Task) (n : Nat) : (doingTask t n).maxRetries = t.maxRetries := rfl

@[simp] theorem doingTask_durationMs (t : Task) (n : Nat) : (doingTask t n).durationMs = t.durationMs := rfl

@[simp] theorem doingTask_column (t : Task) (n : Nat) : (doingTask t n).column = TaskColumn.doing := rfl

@[simp] theorem doingTask_status (t : Task) (n : Nat) : (doingTask t n).status = TaskColumn.doing := rfl

@[simp] theorem doingTask_createdBy (t : Task) (n : Nat) : (doingTask t n).createdBy = t.createdBy := rfl

@[simp] theorem doingTask_updatedAt (t : Task) (n : Nat) : (doingTask t n).updatedAt = n := rfl

@[simp] theorem afterFail_id (t : Task) (n : Nat) : (afterFail t n).id = t.id := rfl

@[simp] theorem afterFail_projectId (t : Task) (n : Nat) : (afterFail t n).projectId = t.projectId := rfl

@[simp] theorem afterFail_title (t : Task) (n : Nat) : (afterFail t n).title = t.title := rfl

@[simp] theorem afterFail_description (t : Task) (n : Nat) : (afterFail t n).description = t.description := rfl

@[simp] theorem afterFail_assignee (t : Task) (n : Nat) : (afterFail t n).assignee = t.assignee := rfl

@[simp] theorem afterFail_priority (t : Task) (n : Nat) : (afterFail t n).priority = t.priority := rfl

@[simp] theorem afterFail_tags (t : Task) (n : Nat) : (afterFail t n).tags = t.tags := rfl

@[simp] theorem afterFail_dependencies (t : Task) (n : Nat) : (afterFail t n).dependencies = t.dependencies := rfl

@[simp] theorem afterFail_comments (t : Task) (n : Nat) : (afterFail t n).comments = t.comments := rfl

@[simp] theorem afterFail_nextTask (t : Task) (n : Nat) : (afterFail t n).nextTask = t.nextTask := rfl

@[simp] theorem afterFail_parentTaskId (t : Task) (n : Nat) : (afterFail t n).parentTaskId = t.parentTaskId := rfl

@[simp] theorem afterFail_requiresReview (t : Task) (n : Nat) : (afterFail t n).requiresReview = t.requiresReview := rfl

@[simp] theorem afterFail_startedAt (t : Task) (n : Nat) : (afterFail t n).startedAt = t.startedAt := rfl

@[simp] theorem afterFail_completedAt (t : Task) (n : Nat) : (afterFail t n).completedAt = t.completedAt := rfl

@[simp] theorem afterFail_failedAt (t : Task) (n : Nat) : (afterFail t n).failedAt = some n := rfl

@[simp] theorem afterFail_retryCount (t : Task) (n : Nat) : (afterFail t n).retryCount = t.retryCount := rfl

@[simp] theorem afterFail_maxRetries (t : Task) (n : Nat) : (afterFail t n).maxRetries = t.maxRetries := rfl

@[simp] theorem afterFail_durationMs (t : Task) (n : Nat) : (afterFail t n).durationMs = t.durationMs := rfl

@[simp] theorem afterFail_column (t : Task) (n : Nat) : (afterFail t n).column = TaskColumn.failed := rfl

@[simp] theorem afterFail_status (t : Task) (n : Nat) : (afterFail t n).status = TaskColumn.failed := rfl

@[simp] theorem afterFail_createdBy (t : Task) (n : Nat) : (afterFail t n).createdBy = t.createdBy := rfl

@[simp] theorem afterFail_updatedAt (t : Task) (n : Nat) : (afterFail t n).updatedAt = n := rfl

@[simp] theorem retriedTask_id (t : Task) (n : Nat) : (retriedTask t n).id = t.id := rfl

@[simp] theorem retriedTask_projectId (t : Task) (n : Nat) : (retriedTask t n).projectId = t.projectId := rfl

@[simp] theorem retriedTask_title (t : Task) (n : Nat) : (retriedTask t n).title = t.title := rfl

@[simp] theorem retriedTask_description (t : Task) (n : Nat) : (retriedTask t n).description = t.description := rfl

@[simp] theorem retriedTask_assignee (t : Task) (n : Nat) : (retriedTask t n).assignee = t.assignee := rfl

@[simp] theorem retriedTask_priority (t : Task) (n : Nat) : (retriedTask t n).priority = t.priority := rfl

@[simp] theorem retriedTask_tags (t : Task) (n : Nat) : (retriedTask t n).tags = t.tags := rfl

@[simp] theorem retriedTask_dependencies (t : Task) (n : Nat) : (retriedTask t n).dependencies = t.dependencies := rfl

@[simp] theorem retriedTask_comments (t : Task) (n : Nat) : (retriedTask t n).comments = t.comments ++ [⟨"system", retryMsg (t.retryCount.getD 0) (t.maxRetries.getD 2), n⟩] := rfl

@[simp] theorem retriedTask_nextTask (t : Task) (n : Nat) : (retriedTask t n).nextTask = t.nextTask := rfl

@[simp] theorem retriedTask_parentTaskId (t : Task) (n : Nat) : (retriedTask t n).parentTaskId = t.parentTaskId := rfl

@[simp] theorem retriedTask_requiresReview (t : Task) (n : Nat) : (retriedTask t n).requiresReview = t.requiresReview := rfl

@[simp] theorem retriedTask_startedAt (t : Task) (n : Nat) : (retriedTask t n).startedAt = t.startedAt := rfl

@[simp] theorem retriedTask_completedAt (t : Task) (n : Nat) : (retriedTask t n).completedAt = t.completedAt := rfl

@[simp] theorem retriedTask_failedAt (t : Task) (n : Nat) : (retriedTask t n).failedAt = none := rfl

@[simp] theorem retriedTask_retryCount (t : Task) (n : Nat) : (retriedTask t n).retryCount = some (t.retryCount.getD 0 + 1) := rfl

@[simp] theorem retriedTask_maxRetries (t : Task) (n : Nat) : (retriedTask t n).maxRetries = t.maxRetries := rfl

@[simp] theorem retriedTask_durationMs (t : Task) (n : Nat) : (retriedTask t n).durationMs = t.durationMs := rfl

@[simp] theorem retriedTask_column (t : Task) (n : Nat) : (retriedTask t n).column = TaskColumn.todo := rfl

@[simp] theorem retriedTask_status (t : Task) (n : Nat) : (retriedTask t n).status = TaskColumn.todo := rfl

@[simp] theorem retriedTask_createdBy (t : Task) (n : Nat) : (retriedTask t n).createdBy = t.createdBy := rfl

@[simp] theorem retriedTask_updatedAt (t : Task) (n : Nat) : (retriedTask t n).updatedAt = n := rfl

@[simp] theorem exhaustedTask_id (t : Task) (n : Nat) : (exhaustedTask t n).id = t.id := rfl

@[simp] theorem exhaustedTask_projectId (t : Task) (n : Nat) : (exhaustedTask t n).projectId = t.projectId := rfl

@[simp] theorem exhaustedTask_title (t : Task) (n : Nat) : (exhaustedTask t n).title = t.title := rfl

@[simp] theorem exhaustedTask_description (t : Task) (n : Nat) : (exhaustedTask t n).description = t.description := rfl

@[simp] theorem exhaustedTask_assignee (t : Task) (n : Nat) : (exhaustedTask t n).assignee = t.assignee := rfl

@[simp] theorem exhaustedTask_priority (t : Task) (n : Nat) : (exhaustedTask t n).priority = t.priority := rfl

@[simp] theorem exhaustedTask_tags (t : Task) (n : Nat) : (exhaustedTask t n).tags = t.tags := rfl

@[simp] theorem exhaustedTask_dependencies (t : Task) (n : Nat) : (exhaustedTask t n).dependencies = t.dependencies := rfl

@[simp] theorem exhaustedTask_comments (t : Task) (n : Nat) : (exhaustedTask t n).comments = t.comments ++ [⟨"system", exhaustMsg (t.maxRetries.getD 2), n⟩] := rfl

@[simp] theorem exhaustedTask_nextTask (t : Task) (n : Nat) : (exhaustedTask t n).nextTask = t.nextTask := rfl

@[simp] theorem exhaustedTask_parentTaskId (t : Task) (n : Nat) : (exhaustedTask t n).parentTaskId = t.parentTaskId := rfl

@[simp] theorem exhaustedTask_requiresReview (t : Task) (n : Nat) : (exhaustedTask t n).requiresReview = t.requiresReview := rfl

@[simp] theorem exhaustedTask_startedAt (t : Task) (n : Nat) : (exhaustedTask t n).startedAt = t.startedAt := rfl

@[simp] theorem exhaustedTask_completedAt (t : Task) (n : Nat) : (exhaustedTask t n).completedAt = t.completedAt := rfl

@[simp] theorem exhaustedTask_failedAt (t : Task) (n : Nat) : (exhaustedTask t n).failedAt = some n := rfl

@[simp] theorem exhaustedTask_retryCount (t : Task) (n : Nat) : (exhaustedTask t n).retryCount = t.retryCount := rfl

@[simp] theorem exhaustedTask_maxRetries (t : Task) (n : Nat) : (exhaustedTask t n).maxRetries = t.maxRetries := rfl

@[simp] theorem exhaustedTask_durationMs (t : Task) (n : Nat) : (exhaustedTask t n).durationMs = t.durationMs := rfl

@[simp] theorem exhaustedTask_column (t : Task) (n : Nat) : (exhaustedTask t n).column = TaskColumn.failed := rfl

@[simp] theorem exhaustedTask_status (t : Task) (n : Nat) : (exhaustedTask t n).status = TaskColumn.failed := rfl

@[simp] theorem exhaustedTask_createdBy (t : Task) (n : Nat) : (exhaustedTask t n).createdBy = t.createdBy := rfl

@[simp] theorem exhaustedTask_updatedAt (t : Task) (n : Nat) : (exhaustedTask t n).updatedAt = n := rfl

@[simp] theorem doneTask_id (t : Task) (n : Nat) : (doneTask t n).id = t.id := rfl

@[simp] theorem doneTask_projectId (t : Task) (n : Nat) : (doneTask t n).projectId = t.projectId := rfl

@[simp] theorem doneTask_title (t : Task) (n : Nat) : (doneTask t n).title = t.title := rfl

@[simp] theorem doneTask_description (t : Task) (n : Nat) : (doneTask t n).description = t.description := rfl

@[simp] theorem doneTask_assignee (t : Task) (n : Nat) : (doneTask t n).assignee = t.assignee := rfl

@[simp] theorem doneTask_priority (t : Task) (n : Nat) : (doneTask t n).priority = t.priority := rfl

@[simp] theorem doneTask_tags (t : Task) (n : Nat) : (doneTask t n).tags = t.tags := rfl

@[simp] theorem doneTask_dependencies (t : Task) (n : Nat) : (doneTask t n).dependencies = t.dependencies := rfl

@[simp] theorem doneTask_comments (t : Task) (n : Nat) : (doneTask t n).comments = t.comments := rfl

@[simp] theorem doneTask_nextTask (t : Task) (n : Nat) : (doneTask t n).nextTask = t.nextTask := rfl

@[simp] theorem doneTask_parentTaskId (t : Task) (n : Nat) : (doneTask t n).parentTaskId = t.parentTaskId := rfl

@[simp] theorem doneTask_requiresReview (t : Task) (n : Nat) : (doneTask t n).requiresReview = t.requiresReview := rfl

@[simp] theorem doneTask_startedAt (t : Task) (n : Nat) : (doneTask t n).startedAt = t.startedAt := rfl

@[simp] theorem doneTask_completedAt (t : Task) (n : Nat) : (doneTask t n).completedAt = some n := rfl

@[simp] theorem doneTask_failedAt (t : Task) (n : Nat) : (doneTask t n).failedAt = t.failedAt := rfl

@[simp] theorem doneTask_retryCount (t : Task) (n : Nat) : (doneTask t n).retryCount = t.retryCount := rfl

@[simp] theorem doneTask_maxRetries (t : Task) (n : Nat) : (doneTask t n).maxRetries = t.maxRetries := rfl

@[simp] theorem doneTask_durationMs (t : Task) (n : Nat) : (doneTask t n).durationMs = match t.startedAt with | some s => some ((n : Int) - (s : Int)) | none => t.durationMs := rfl

@[simp] theorem doneTask_column (t : Task) (n : Nat) : (doneTask t n).column = TaskColumn.done := rfl

@[simp] theorem doneTask_status (t : Task) (n : Nat) : (doneTask t n).status = TaskColumn.done := rfl

@[simp] theorem doneTask_createdBy (t : Task) (n : Nat) : (doneTask t n).createdBy = t.createdBy := rfl

@[simp] theorem doneTask_updatedAt (t : Task) (n : Nat) : (doneTask t n).updatedAt = n := rfl

/-! ### What `moveTask` does, move by move -/

/-- A move into `failed` stores the `failedAt`-stamped snapshot, then either
auto-retries (back to `todo`, count bumped, attempt comment) or appends the
exhaustion comment, depending on `retryCount < maxRetries`. -/
theorem moveTask_failed_eq (pre post : List Task) (t : Task) (n : Nat) (nid : String)
    (hpre : ∀ x ∈ pre, x.id ≠ t.id) :
    moveTask (pre ++ t :: post) t.id TaskColumn.failed n nid =
      if t.retryCount.getD 0 < t.maxRetries.getD 2 then
        (MoveOutcome.ok (afterFail t n) true none, pre ++ retriedTask t n :: post)
      else
        (MoveOutcome.ok (afterFail t n) false none, pre ++ exhaustedTask t n :: post) := by
  have hfind := getTask_append_cons pre post t t.id hpre rfl
  have hupd := updateTask_append_cons pre post t t.id (moveUpdates TaskColumn.failed t n) n hpre rfl
  unfold moveTask
  rw [hfind]
  simp only [hupd, applyTaskUpdate_failed]
  by_cases hr : t.retryCount.getD 0 < t.maxRetries.getD 2
  · have hupd2 := updateTask_append_cons pre post (afterFail t n) t.id ({ column := some TaskColumn.todo, retryCount := some (some (t.retryCount.getD 0 + 1)), failedAt := some none }) n hpre rfl
    rw [applyTaskUpdate_retry] at hupd2
    have hcmt := addComment_append_cons pre post { t with column := TaskColumn.todo, status := TaskColumn.todo, retryCount := some (t.retryCount.getD 0 + 1), failedAt := none, updatedAt := n } t.id "system" (retryMsg (t.retryCount.getD 0) (t.maxRetries.getD 2)) n hpre rfl
    simp only [afterFail] at hupd2
    simp [afterFail, hr, hupd2, hcmt, retriedTask]
  · have hcmt := addComment_append_cons pre post (afterFail t n) t.id "system" (exhaustMsg (t.maxRetries.getD 2)) n hpre rfl
    simp only [afterFail] at hcmt
    simp [afterFail, hr, hcmt, exhaustedTask]

/-- A move into `doing` with no dependencies passes the gates and stores the
`doingTask` form (first move stamps `startedAt`, later ones keep it). -/
theorem moveTask_doing_eq (pre post : List Task) (t : Task) (n : Nat) (nid : String)
    (hpre : ∀ x ∈ pre, x.id ≠ t.id) (hdeps : t.dependencies = []) :
    moveTask (pre ++ t :: post) t.id TaskColumn.doing n nid =
      (MoveOutcome.ok (doingTask t n) false none, pre ++ doingTask t n :: post) := by
  have hfind := getTask_append_cons pre post t t.id hpre rfl
  have hupd := updateTask_append_cons pre post t t.id (moveUpdates TaskColumn.doing t n) n hpre rfl
  unfold moveTask
  rw [hfind]
  simp [hupd, applyTaskUpdate_doing, hdeps, blockersFor]

/-- A move into `done` that passes the quality gate, with no dependents to
notify and no `nextTask` template, stores the `doneTask` form. -/
theorem moveTask_done_eq (pre post : List Task) (t : Task) (n : Nat) (nid : String)
    (hpre : ∀ x ∈ pre, x.id ≠ t.id)
    (hrev : t.requiresReview = true → t.column = TaskColumn.review)
    (hnodep : ∀ x ∈ pre ++ t :: post, t.id ∉ x.dependencies)
    (hnext : t.nextTask = none) :
    moveTask (pre ++ t :: post) t.id TaskColumn.done n nid =
      (MoveOutcome.ok (doneTask t n) false none, pre ++ doneTask t n :: post) := by
  have hfind := getTask_append_cons pre post t t.id hpre rfl
  have hupd := updateTask_append_cons pre post t t.id (moveUpdates TaskColumn.done t n) n hpre rfl
  have hq : ¬(t.requiresReview = true ∧ t.column ≠ TaskColumn.review) := by
    rintro ⟨h1, h2⟩
    exact h2 (hrev h1)
  have hfil : (pre ++ doneTask t n :: post).filter (fun x => decide (t.id ∈ x.dependencies)) = [] := by
    rw [List.filter_eq_nil_iff]
    intro a ha
    rcases List.mem_append.mp ha with hl | hr
    · simpa using hnodep a (List.mem_append.mpr (Or.inl hl))
    · rcases List.mem_cons.mp hr with he | hpost
      · subst he
        simpa using hnodep t (List.mem_append.mpr (Or.inr (List.mem_cons_self t post)))
      · simpa using hnodep a (List.mem_append.mpr (Or.inr (List.mem_cons_of_mem t hpost)))
  unfold moveTask
  rw [hfind]
  simp [hupd, applyTaskUpdate_done, hq, hfil, hnext]

theorem createTask_chainedFrom (ts : List Task) (u : Task) (nt : NextTask) (i : String) (n : Nat) :
    createTask ts (chainedFrom u nt i n) = (chainedFrom u nt i n, ts ++ [chainedFrom u nt i n]) := rfl

/-- A move into `done` of a task that carries a `nextTask` template: the
store gains exactly the chained task, appended at the end. -/
theorem moveTask_done_chain_eq (pre post : List Task) (t : Task) (nt : NextTask) (n : Nat) (nid : String)
    (hpre : ∀ x ∈ pre, x.id ≠ t.id)
    (hrev : t.requiresReview = true → t.column = TaskColumn.review)
    (hnodep : ∀ x ∈ pre ++ t :: post, t.id ∉ x.dependencies)
    (hnext : t.nextTask = some nt) :
    moveTask (pre ++ t :: post) t.id TaskColumn.done n nid =
      (MoveOutcome.ok (doneTask t n) false (some (chainedFrom (doneTask t n) nt nid n)),
        (pre ++ doneTask t n :: post) ++ [chainedFrom (doneTask t n) nt nid n]) := by
  have hfind := getTask_append_cons pre post t t.id hpre rfl
  have hupd := updateTask_append_cons pre post t t.id (moveUpdates TaskColumn.done t n) n hpre rfl
  have hq : ¬(t.requiresReview = true ∧ t.column ≠ TaskColumn.review) := by
    rintro ⟨h1, h2⟩
    exact h2 (hrev h1)
  have hfil : (pre ++ doneTask t n :: post).filter (fun x => decide (t.id ∈ x.dependencies)) = [] := by
    rw [List.filter_eq_nil_iff]
    intro a ha
    rcases List.mem_append.mp ha with hl | hr
    · simpa using hnodep a (List.mem_append.mpr (Or.inl hl))
    · rcases List.mem_cons.mp hr with he | hpost
      · subst he
        simpa using hnodep t (List.mem_append.mpr (Or.inr (List.mem_cons_self t post)))
      · simpa using hnodep a (List.mem_append.mpr (Or.inr (List.mem_cons_of_mem t hpost)))
  unfold moveTask
  rw [hfind]
  simp [hupd, applyTaskUpdate_done, hq, hfil, hnext, createTask_chainedFrom]

@[simp] theorem isOk_ok (t : Task) (r : Bool) (c : Option Task) :
    (MoveOutcome.ok t r c).isOk = true := rfl

@[simp] theorem isOk_err (m : String) (q : Bool) : (MoveOutcome.err m q).isOk = false := rfl

@[simp] theorem retriedFlag_ok (t : Task) (r : Bool) (c : Option Task) :
    (MoveOutcome.ok t r c).retriedFlag = r := rfl

/-- Split an `updateTask` call on a present id into its components: the first
component is the merged task. -/
theorem updateTask_split (tasks : List Task) (id : String) (u : TaskUpdate) (n : Nat)
    (t : Task) (hfind : getTask tasks id = some t) :
    updateTask tasks id u n = (some (applyTaskUpdate t u n), (updateTask tasks id u n).2) := by
  have h1 : (updateTask tasks id u n).1 = some (applyTaskUpdate t u n) := by
    rw [updateTask_fst, hfind]; rfl
  calc updateTask tasks id u n
      = ((updateTask tasks id u n).1, (updateTask tasks id u n).2) := rfl
    _ = (some (applyTaskUpdate t u n), (updateTask tasks id u n).2) := by rw [h1]

/-- C4.  Quality gate: a `requiresReview` task in `doing` cannot move straight
to `done` (the move fails with the machine-readable `requiresReview` flag and
the store is untouched); moving it to `review` succeeds; and from `review`,
moving to `done` succeeds. -/
theorem moveTask_quality_gate (tasks : List Task) (taskId : String) (t : Task)
    (n : Nat) (nid : String)
    (hfind : getTask tasks taskId = some t) (hreq : t.requiresReview = true) :
    (t.column = TaskColumn.doing →
       moveTask tasks taskId TaskColumn.done n nid = (MoveOutcome.err qualityGateMsg true, tasks)) ∧
    (moveTask tasks taskId TaskColumn.review n nid).1.isOk = true ∧
    (t.column = TaskColumn.review →
       (moveTask tasks taskId TaskColumn.done n nid).1.isOk = true) := by
  refine ⟨?_, ?_, ?_⟩
  · intro hcol
    unfold moveTask
    rw [hfind]
    simp [hreq, hcol]
  · unfold moveTask
    rw [hfind]
    dsimp only
    rw [updateTask_split tasks taskId _ n t hfind]
    simp
  · intro hcol
    unfold moveTask
    rw [hfind]
    dsimp only
    rw [updateTask_split tasks taskId _ n t hfind]
    have hq : ¬(t.requiresReview = true ∧ t.column ≠ TaskColumn.review) := by
      rintro ⟨_, h2⟩; exact h2 hcol
    simp only [hq, if_false]
    cases (applyTaskUpdate t (moveUpdates TaskColumn.done t n) n).nextTask <;> simp

/-- C1.  Dependency gate: if some dependency of the task is stored and not in
`done`, `move(task, doing)` fails with the blocker-listing error and leaves the
store (hence the task) unchanged; if every stored dependency is in `done`, the
same move succeeds. -/
theorem moveTask_dependency_gate (tasks : List Task) (taskId : String) (t : Task)
    (n : Nat) (nid : String) (hfind : getTask tasks taskId = some t) :
    ((∃ depId ∈ t.dependencies, ∃ d, getTask tasks depId = some d ∧ d.column ≠ TaskColumn.done) →
       blockersFor tasks t.dependencies ≠ [] ∧
       moveTask tasks taskId TaskColumn.doing n nid =
         (MoveOutcome.err (blockedMsg (blockersFor tasks t.dependencies)) false, tasks)) ∧
    ((∀ depId ∈ t.dependencies, ∀ d, getTask tasks depId = some d → d.column = TaskColumn.done) →
       (moveTask tasks taskId TaskColumn.doing n nid).1.isOk = true) := by
  constructor
  · rintro ⟨depId, hmem, d, hd, hcol⟩
    have hb : blockersFor tasks t.dependencies ≠ [] := by
      intro h0
      rw [blockersFor, List.filterMap_eq_nil_iff] at h0
      have := h0 depId hmem
      rw [hd] at this
      simp [hcol] at this
    refine ⟨hb, ?_⟩
    unfold moveTask
    rw [hfind]
    simp [List.length_pos.mpr hb]
  · intro hall
    have hb : blockersFor tasks t.dependencies = [] := by
      rw [blockersFor, List.filterMap_eq_nil_iff]
      intro depId hmem
      cases hd : getTask tasks depId with
      | none => rfl
      | some d => simp [hall depId hmem d hd]
    unfold moveTask
    rw [hfind]
    dsimp only
    rw [updateTask_split tasks taskId _ n t hfind]
    simp [hb]

/-- C7 counterexample.  A task whose only dependency id has no stored task:
the code skips missing dependencies in the blocker scan, so the move into
`doing` succeeds, where the claim says it must fail. -/
theorem missing_dep_counterexample :
    (moveTask exStoreGhost "A" TaskColumn.doing 5 "n1").1.isOk = true ∧
    blockersFor exStoreGhost ["ghost"] = [] := by
  constructor <;> rfl

/-- C7 amended.  A missing (deleted) dependency is *not* treated as a blocker:
the blocker scan skips dependency ids with no stored task, so a move into
`doing` whose dependencies are all missing succeeds. -/
theorem moveTask_missing_deps_ignored (tasks : List Task) (taskId : String) (t : Task)
    (n : Nat) (nid : String) (hfind : getTask tasks taskId = some t)
    (hmissing : ∀ depId ∈ t.dependencies, getTask tasks depId = none) :
    blockersFor tasks t.dependencies = [] ∧
    (moveTask tasks taskId TaskColumn.doing n nid).1.isOk = true := by
  have hb : blockersFor tasks t.dependencies = [] := by
    rw [blockersFor, List.filterMap_eq_nil_iff]
    intro depId hmem
    rw [hmissing depId hmem]
  refine ⟨hb, ?_⟩
  unfold moveTask
  rw [hfind]
  dsimp only
  rw [updateTask_split tasks taskId _ n t hfind]
  simp [hb]

/-- C8 counterexample.  A malformed collection file (`parsed = none`): the
`catch` in `readJSON` returns the fallback, so `list` returns the empty list
and `get` returns not-found — ordinary results, indistinguishable from an
empty collection, not a read failure. -/
theorem malformed_read_counterexample :
    getTasksFromDisk none = [] ∧
    getTasksFromDisk none = getTasksFromDisk (some []) ∧
    getTaskFromDisk none "T" = none ∧
    readJSON none [baseTask] = [baseTask] := ⟨rfl, rfl, rfl, rfl⟩

/-- C8 amended.  On a malformed (unparseable) collection file the store
silently recovers: `readJSON` returns its fallback, so `list` yields `[]` and
`get` yields not-found instead of failing. -/
theorem readJSON_malformed_fallback (fallback : List Task) (id : String) :
    readJSON none fallback = fallback ∧
    getTasksFromDisk none = [] ∧
    getTaskFromDisk none id = none := ⟨rfl, rfl, rfl⟩

/-- C10.  On an auto-retried move the returned `task` field is the
`failed`-transition snapshot (column `failed`, `failedAt` stamped,
`retryCount` not yet incremented) while the task stored at return time is back
in `todo` with the incremented `retryCount` and no `failedAt`; the two
disagree. -/
theorem moveTask_retry_returned_vs_stored (pre post : List Task) (t : Task)
    (n : Nat) (nid : String) (hpre : ∀ x ∈ pre, x.id ≠ t.id)
    (hr : t.retryCount.getD 0 < t.maxRetries.getD 2) :
    ∃ ret stored,
      moveTask (pre ++ t :: post) t.id TaskColumn.failed n nid =
        (MoveOutcome.ok ret true none, pre ++ stored :: post) ∧
      ret.column = TaskColumn.failed ∧ ret.failedAt = some n ∧
      ret.retryCount = t.retryCount ∧
      getTask (pre ++ stored :: post) t.id = some stored ∧
      stored.column = TaskColumn.todo ∧
      stored.retryCount = some (t.retryCount.getD 0 + 1) ∧
      stored.failedAt = none ∧ ret ≠ stored := by
  refine ⟨afterFail t n, retriedTask t n, ?_, rfl, rfl, rfl, ?_, rfl, rfl, rfl, ?_⟩
  · rw [moveTask_failed_eq pre post t n nid hpre, if_pos hr]
  · exact getTask_append_cons pre post (retriedTask t n) t.id hpre rfl
  · intro h
    have := congrArg Task.column h
    simp at this

/-- Every element of the collection after an `updateTask` is either an
original element or the merge of an original element. -/
theorem mem_updateTask_snd (tasks : List Task) (id : String) (u : TaskUpdate) (n : Nat)
    (x : Task) (hx : x ∈ (updateTask tasks id u n).2) :
    x ∈ tasks ∨ ∃ y ∈ tasks, x = applyTaskUpdate y u n := by
  induction tasks with
  | nil => simpa [updateTask] using hx
  | cons a as ih =>
    by_cases ha : a.id = id
    · simp only [updateTask, ha, if_true, eq_self_iff_true] at hx
      rcases List.mem_cons.mp hx with he | hm
      · exact Or.inr ⟨a, List.mem_cons_self a as, he⟩
      · exact Or.inl (List.mem_cons_of_mem a hm)
    · simp only [updateTask, ha, if_false] at hx
      rcases List.mem_cons.mp hx with he | hm
      · exact Or.inl (he ▸ List.mem_cons_self a as)
      · rcases ih hm with h | ⟨y, hy, he2⟩
        · exact Or.inl (List.mem_cons_of_mem a h)
        · exact Or.inr ⟨y, List.mem_cons_of_mem a hy, he2⟩

/-- `applyTaskUpdate` preserves the `status === column` invariant. -/
theorem applyTaskUpdate_status_eq_column (y : Task) (u : TaskUpdate) (n : Nat)
    (hy : y.status = y.column) :
    (applyTaskUpdate y u n).status = (applyTaskUpdate y u n).column := by
  unfold applyTaskUpdate
  cases hc : u.column with
  | some c => simp [mergeUpdates, hc]
  | none =>
    cases hs : u.status with
    | some st => simp [mergeUpdates, hc, hs]
    | none => simp [mergeUpdates, hc, hs, hy]

/-- One store call preserves the invariant. -/
theorem applyOp_inv (s : List Task) (op : StoreOp) (hinv : ColumnStatusInv s) :
    ColumnStatusInv (applyOp s op) := by
  cases op with
  | create t =>
    intro x hx
    rcases List.mem_append.mp hx with h | h
    · exact hinv x h
    · rcases List.mem_singleton.mp h with rfl
      rfl
  | update id u n =>
    intro x hx
    rcases mem_updateTask_snd s id u n x hx with h | ⟨y, hy, rfl⟩
    · exact hinv x h
    · exact applyTaskUpdate_status_eq_column y u n (hinv y hy)

/-- C3.  Column/status mirroring: for every sequence of `createTask` /
`updateTask` calls starting from an invariant-satisfying collection, every
stored task satisfies `status === column` after each call (every prefix of a
sequence is a sequence, so the folded statement covers each intermediate
state); moreover, in a single update a supplied `column` drives `status` and a
supplied `status` alone drives `column`. -/
theorem create_update_status_eq_column (s : List Task) (ops : List StoreOp)
    (hinv : ColumnStatusInv s) :
    ColumnStatusInv (ops.foldl applyOp s) ∧
    (∀ (t : Task) (u : TaskUpdate) (n : Nat) (c : TaskColumn),
      u.column = some c →
        (applyTaskUpdate t u n).column = c ∧ (applyTaskUpdate t u n).status = c) ∧
    (∀ (t : Task) (u : TaskUpdate) (n : Nat) (c : TaskColumn),
      u.column = none → u.status = some c →
        (applyTaskUpdate t u n).column = c ∧ (applyTaskUpdate t u n).status = c) := by
  refine ⟨?_, ?_, ?_⟩
  · induction ops generalizing s with
    | nil => simpa using hinv
    | cons op ops ih =>
      simpa using ih (applyOp s op) (applyOp_inv s op hinv)
  · intro t u n c hc
    unfold applyTaskUpdate
    simp [mergeUpdates, hc]
  · intro t u n c hc hs
    unfold applyTaskUpdate
    simp [mergeUpdates, hc, hs]

/-- Replaying a no-dependents hypothesis onto a store whose middle task kept
its id and dependency list. -/
theorem nodep_shift (pre post : List Task) (t x2 : Task)
    (hnodep : ∀ x ∈ pre ++ t :: post, t.id ∉ x.dependencies)
    (hid : x2.id = t.id) (hdep : x2.dependencies = t.dependencies) :
    ∀ x ∈ pre ++ x2 :: post, x2.id ∉ x.dependencies := by
  intro x hx
  rw [hid]
  rcases List.mem_append.mp hx with h | h
  · exact hnodep x (List.mem_append.mpr (Or.inl h))
  · rcases List.mem_cons.mp h with he | h
    · subst he
      rw [hdep]
      exact hnodep t (List.mem_append.mpr (Or.inr (List.mem_cons_self t post)))
    · exact hnodep x (List.mem_append.mpr (Or.inr (List.mem_cons_of_mem t h)))

/-- C2.  Auto-retry bound: a task with `maxRetries = 2` and `retryCount = 0`
cycled `doing → failed` three times shows stored `retryCount` 1, 2, 2 after
the failures, `retried` flags `true, true, false`, a `todo` column with
cleared `failedAt` and an attempt comment after each of the first two
failures, and a `failed` column with the exhaustion comment after the third. -/
theorem moveTask_auto_retry_bound (pre post : List Task) (t : Task)
    (n1 n2 n3 n4 n5 n6 : Nat) (nid : String)
    (hpre : ∀ x ∈ pre, x.id ≠ t.id)
    (hdeps : t.dependencies = [])
    (hrc : t.retryCount = some 0)
    (hmr : t.maxRetries = some 2) :
    let r1 := moveTask (pre ++ t :: post) t.id TaskColumn.doing n1 nid
    let r2 := moveTask r1.2 t.id TaskColumn.failed n2 nid
    let r3 := moveTask r2.2 t.id TaskColumn.doing n3 nid
    let r4 := moveTask r3.2 t.id TaskColumn.failed n4 nid
    let r5 := moveTask r4.2 t.id TaskColumn.doing n5 nid
    let r6 := moveTask r5.2 t.id TaskColumn.failed n6 nid
    r2.1.retriedFlag = true ∧ r4.1.retriedFlag = true ∧ r6.1.retriedFlag = false ∧
    (∃ u2, getTask r2.2 t.id = some u2 ∧ u2.retryCount = some 1 ∧
       u2.column = TaskColumn.todo ∧ u2.failedAt = none ∧
       (⟨"system", retryMsg 0 2, n2⟩ : Comment) ∈ u2.comments) ∧
    (∃ u4, getTask r4.2 t.id = some u4 ∧ u4.retryCount = some 2 ∧
       u4.column = TaskColumn.todo ∧ u4.failedAt = none ∧
       (⟨"system", retryMsg 1 2, n4⟩ : Comment) ∈ u4.comments) ∧
    (∃ u6, getTask r6.2 t.id = some u6 ∧ u6.retryCount = some 2 ∧
       u6.column = TaskColumn.failed ∧
       (⟨"system", exhaustMsg 2, n6⟩ : Comment) ∈ u6.comments) := by
  dsimp only
  have h1 := moveTask_doing_eq pre post t n1 nid hpre hdeps
  have h2 := moveTask_failed_eq pre post (doingTask t n1) n2 nid (by simpa using hpre)
  rw [if_pos (by simp [hrc, hmr] :
    (doingTask t n1).retryCount.getD 0 < (doingTask t n1).maxRetries.getD 2)] at h2
  have h3 := moveTask_doing_eq pre post (retriedTask (doingTask t n1) n2) n3 nid
    (by simpa using hpre) (by simp [hdeps])
  have h4 := moveTask_failed_eq pre post
    (doingTask (retriedTask (doingTask t n1) n2) n3) n4 nid (by simpa using hpre)
  rw [if_pos (by simp [hrc, hmr] :
    (doingTask (retriedTask (doingTask t n1) n2) n3).retryCount.getD 0 <
      (doingTask (retriedTask (doingTask t n1) n2) n3).maxRetries.getD 2)] at h4
  have h5 := moveTask_doing_eq pre post
    (retriedTask (doingTask (retriedTask (doingTask t n1) n2) n3) n4) n5 nid
    (by simpa using hpre) (by simp [hdeps])
  have h6 := moveTask_failed_eq pre post
    (doingTask (retriedTask (doingTask (retriedTask (doingTask t n1) n2) n3) n4) n5) n6 nid
    (by simpa using hpre)
  rw [if_neg (by simp [hrc, hmr] :
    ¬((doingTask (retriedTask (doingTask (retriedTask (doingTask t n1) n2) n3) n4) n5).retryCount.getD 0 <
      (doingTask (retriedTask (doingTask (retriedTask (doingTask t n1) n2) n3) n4) n5).maxRetries.getD 2))] at h6
  simp only [doingTask_id, retriedTask_id] at h2 h3 h4 h5 h6
  simp only [h1, h2, h3, h4, h5, h6]
  refine ⟨rfl, rfl, rfl, ?_, ?_, ?_⟩
  · exact ⟨retriedTask (doingTask t n1) n2,
      getTask_append_cons pre post _ t.id (by simpa using hpre) rfl,
      by simp [hrc], rfl, rfl, by simp [hrc, hmr]⟩
  · exact ⟨retriedTask (doingTask (retriedTask (doingTask t n1) n2) n3) n4,
      getTask_append_cons pre post _ t.id (by simpa using hpre) rfl,
      by simp [hrc], rfl, rfl, by simp [hrc, hmr]⟩
  · exact ⟨exhaustedTask (doingTask (retriedTask (doingTask (retriedTask (doingTask t n1) n2) n3) n4) n5) n6,
      getTask_append_cons pre post _ t.id (by simpa using hpre) rfl,
      by simp [hrc], rfl, by simp [hrc, hmr]⟩

/-- C5.  Duration metrics: `backlog → doing → done` stamps `startedAt` on the
first move into `doing` and yields `durationMs = completedAt − startedAt ≥ 0`;
a second `doing → done` round-trip never overwrites the existing `startedAt`. -/
theorem moveTask_duration_metrics (pre post : List Task) (t : Task)
    (n1 n2 n3 n4 : Nat) (nid : String)
    (hpre : ∀ x ∈ pre, x.id ≠ t.id)
    (hdeps : t.dependencies = [])
    (hrev : t.requiresReview = false)
    (hstart : t.startedAt = none)
    (hnext : t.nextTask = none)
    (hnodep : ∀ x ∈ pre ++ t :: post, t.id ∉ x.dependencies)
    (h12 : n1 ≤ n2) :
    let r1 := moveTask (pre ++ t :: post) t.id TaskColumn.doing n1 nid
    let r2 := moveTask r1.2 t.id TaskColumn.done n2 nid
    let r3 := moveTask r2.2 t.id TaskColumn.doing n3 nid
    let r4 := moveTask r3.2 t.id TaskColumn.done n4 nid
    (∃ u2, getTask r2.2 t.id = some u2 ∧ u2.startedAt = some n1 ∧
       u2.completedAt = some n2 ∧ u2.durationMs = some ((n2 : Int) - (n1 : Int)) ∧
       0 ≤ ((n2 : Int) - (n1 : Int))) ∧
    (∃ u4, getTask r4.2 t.id = some u4 ∧ u4.startedAt = some n1 ∧
       u4.completedAt = some n4 ∧ u4.durationMs = some ((n4 : Int) - (n1 : Int))) := by
  dsimp only
  have h1 := moveTask_doing_eq pre post t n1 nid hpre hdeps
  have h2 := moveTask_done_eq pre post (doingTask t n1) n2 nid (by simpa using hpre)
    (by simp [hrev]) (nodep_shift pre post t _ hnodep rfl rfl) (by simp [hnext])
  have h3 := moveTask_doing_eq pre post (doneTask (doingTask t n1) n2) n3 nid
    (by simpa using hpre) (by simp [hdeps])
  have h4 := moveTask_done_eq pre post (doingTask (doneTask (doingTask t n1) n2) n3) n4 nid
    (by simpa using hpre) (by simp [hrev])
    (nodep_shift pre post t _ hnodep rfl rfl) (by simp [hnext])
  simp only [doingTask_id, doneTask_id] at h2 h3 h4
  simp only [h1, h2, h3, h4]
  constructor
  · refine ⟨doneTask (doingTask t n1) n2,
      getTask_append_cons pre post _ t.id (by simpa using hpre) rfl,
      by simp [hstart], rfl, by simp [hstart], by omega⟩
  · refine ⟨doneTask (doingTask (doneTask (doingTask t n1) n2) n3) n4,
      getTask_append_cons pre post _ t.id (by simpa using hpre) rfl,
      by simp [hstart], rfl, by simp [hstart]⟩

/-- C6.  Chaining: completing a task that carries a `nextTask` template
creates exactly one new task — appended to the store — in column (and status)
`todo`, with `parentTaskId` the completed task's id, title/assignee from the
template, description/priority/tags from the template when present and
otherwise inherited or defaulted from the completed task, and exactly one
system comment noting its origin; without a template no task is spawned. -/
theorem moveTask_chaining (pre post : List Task) (t : Task) (n : Nat) (nid : String)
    (hpre : ∀ x ∈ pre, x.id ≠ t.id)
    (hrev : t.requiresReview = true → t.column = TaskColumn.review)
    (hnodep : ∀ x ∈ pre ++ t :: post, t.id ∉ x.dependencies) :
    (∀ nt, t.nextTask = some nt →
       ∃ c, moveTask (pre ++ t :: post) t.id TaskColumn.done n nid =
              (MoveOutcome.ok (doneTask t n) false (some c),
                (pre ++ doneTask t n :: post) ++ [c]) ∧
            c.column = TaskColumn.todo ∧ c.status = TaskColumn.todo ∧
            c.parentTaskId = some t.id ∧ c.title = nt.title ∧ c.assignee = nt.assignee ∧
            (∀ p, nt.priority = some p → c.priority = p) ∧
            (nt.priority = none → c.priority = t.priority) ∧
            (∀ tg, nt.tags = some tg → c.tags = tg) ∧
            (nt.tags = none → c.tags = t.tags) ∧
            (∀ d, nt.description = some d → d ≠ "" → c.description = d) ∧
            (nt.description = none → c.description = chainDescMsg (doneTask t n)) ∧
            c.comments = [⟨"system", chainSeedMsg (doneTask t n), n⟩]) ∧
    (t.nextTask = none →
       moveTask (pre ++ t :: post) t.id TaskColumn.done n nid =
         (MoveOutcome.ok (doneTask t n) false none, pre ++ doneTask t n :: post)) := by
  constructor
  · intro nt hnt
    refine ⟨chainedFrom (doneTask t n) nt nid n,
      moveTask_done_chain_eq pre post t nt n nid hpre hrev hnodep hnt,
      rfl, rfl, rfl, rfl, rfl, ?_, ?_, ?_, ?_, ?_, ?_, rfl⟩
    · intro p hp; simp [chainedFrom, hp]
    · intro hp; simp [chainedFrom, hp]
    · intro tg htg; simp [chainedFrom, htg]
    · intro htg; simp [chainedFrom, htg]
    · intro d hd hne; simp [chainedFrom, jsOrStr, hd, hne]
    · intro hd; simp [chainedFrom, jsOrStr, hd]
  · intro hnone
    exact moveTask_done_eq pre post t n nid hpre hrev hnodep hnone

/-! ### Correctness of the cycle check -/

/-- If the worklist loop reports a cycle, some stack entry reaches `taskId`. -/
theorem hasCycleAux_sound (tasks : List Task) (taskId : String) :
    ∀ visited stack, hasCycleAux tasks taskId visited stack = true →
      ∃ c ∈ stack, Reaches tasks c taskId := by
  intro visited stack
  induction visited, stack using hasCycleAux.induct tasks taskId with
  | case1 visited =>
    intro h
    simp [hasCycleAux] at h
  | case2 visited rest =>
    intro _
    exact ⟨taskId, List.mem_cons_self taskId rest, Relation.ReflTransGen.refl⟩
  | case3 visited current rest hcur hv ih =>
    intro h
    rw [hasCycleAux, if_neg hcur, dif_pos hv] at h
    rcases ih h with ⟨c, hc, hr⟩
    exact ⟨c, List.mem_cons_of_mem current hc, hr⟩
  | case4 visited current rest hcur hv t h2 ih =>
    intro h
    rw [hasCycleAux, if_neg hcur, dif_neg hv, h2] at h
    rcases ih h with ⟨c, hc, hr⟩
    rcases List.mem_append.mp hc with hl | hrr
    · refine ⟨current, List.mem_cons_self current rest, ?_⟩
      exact Relation.ReflTransGen.head ⟨t, h2, List.mem_reverse.mp hl⟩ hr
    · exact ⟨c, List.mem_cons_of_mem current hrr, hr⟩
  | case5 visited current rest hcur hv h2 ih =>
    intro h
    rw [hasCycleAux, if_neg hcur, dif_neg hv, h2] at h
    rcases ih h with ⟨c, hc, hr⟩
    exact ⟨c, List.mem_cons_of_mem current hc, hr⟩

/-- A step-closed set of ids that avoids `taskId` cannot reach `taskId`. -/
theorem closed_no_reach (tasks : List Task) (taskId : String) (S : List String)
    (hclosed : ∀ v ∈ S, v ≠ taskId ∧ ∀ d, DepStep tasks v d → d ∈ S) :
    ∀ x ∈ S, ¬ Reaches tasks x taskId := by
  intro x hx hr
  revert hx
  induction hr using Relation.ReflTransGen.head_induction_on with
  | refl => intro hx; exact (hclosed _ hx).1 rfl
  | head hstep _ ih => intro hx; exact ih ((hclosed _ hx).2 _ hstep)

/-- If the worklist loop reports no cycle, nothing on the stack (nor already
visited) reaches `taskId`, provided the visited set is closed up to the
stack. -/
theorem hasCycleAux_complete (tasks : List Task) (taskId : String) :
    ∀ visited stack,
      (∀ v ∈ visited, v ≠ taskId ∧ ∀ d, DepStep tasks v d → d ∈ visited ∨ d ∈ stack) →
      hasCycleAux tasks taskId visited stack = false →
      ∀ x, (x ∈ stack ∨ x ∈ visited) → ¬ Reaches tasks x taskId := by
  intro visited stack
  induction visited, stack using hasCycleAux.induct tasks taskId with
  | case1 visited =>
    intro hinv _ x hx
    rcases hx with hx | hx
    · exact absurd hx (List.not_mem_nil x)
    · exact closed_no_reach tasks taskId visited
        (fun v hv => ⟨(hinv v hv).1, fun d hd => by
          rcases (hinv v hv).2 d hd with h | h
          · exact h
          · exact absurd h (List.not_mem_nil d)⟩) x hx
  | case2 visited rest =>
    intro _ hfalse
    rw [hasCycleAux, if_pos rfl] at hfalse
    exact absurd hfalse (by simp)
  | case3 visited current rest hcur hv ih =>
    intro hinv hfalse
    rw [hasCycleAux, if_neg hcur, dif_pos hv] at hfalse
    have hinv2 : ∀ v ∈ visited, v ≠ taskId ∧ ∀ d, DepStep tasks v d → d ∈ visited ∨ d ∈ rest := by
      intro v hvm
      refine ⟨(hinv v hvm).1, fun d hd => ?_⟩
      rcases (hinv v hvm).2 d hd with h | h
      · exact Or.inl h
      · rcases List.mem_cons.mp h with he | h
        · exact Or.inl (he ▸ hv)
        · exact Or.inr h
    intro x hx
    rcases hx with hx | hx
    · rcases List.mem_cons.mp hx with he | hx
      · exact he ▸ ih hinv2 hfalse current (Or.inr hv)
      · exact ih hinv2 hfalse x (Or.inl hx)
    · exact ih hinv2 hfalse x (Or.inr hx)
  | case4 visited current rest hcur hv t h2 ih =>
    intro hinv hfalse
    rw [hasCycleAux, if_neg hcur, dif_neg hv, h2] at hfalse
    have hinv2 : ∀ v ∈ current :: visited, v ≠ taskId ∧
        ∀ d, DepStep tasks v d → d ∈ current :: visited ∨ d ∈ t.dependencies.reverse ++ rest := by
      intro v hvm
      rcases List.mem_cons.mp hvm with he | hvm
      · subst he
        refine ⟨hcur, fun d hd => ?_⟩
        rcases hd with ⟨t2, ht2, hdm⟩
        rw [h2] at ht2
        cases ht2
        exact Or.inr (List.mem_append.mpr (Or.inl (List.mem_reverse.mpr hdm)))
      · refine ⟨(hinv v hvm).1, fun d hd => ?_⟩
        rcases (hinv v hvm).2 d hd with h | h
        · exact Or.inl (List.mem_cons_of_mem current h)
        · rcases List.mem_cons.mp h with he | h
          · exact Or.inl (he ▸ List.mem_cons_self current visited)
          · exact Or.inr (List.mem_append.mpr (Or.inr h))
    intro x hx
    rcases hx with hx | hx
    · rcases List.mem_cons.mp hx with he | hx
      · exact he ▸ ih hinv2 hfalse current (Or.inr (List.mem_cons_self current visited))
      · exact ih hinv2 hfalse x (Or.inl (List.mem_append.mpr (Or.inr hx)))
    · exact ih hinv2 hfalse x (Or.inr (List.mem_cons_of_mem current hx))
  | case5 visited current rest hcur hv h2 ih =>
    intro hinv hfalse
    rw [hasCycleAux, if_neg hcur, dif_neg hv, h2] at hfalse
    have hinv2 : ∀ v ∈ current :: visited, v ≠ taskId ∧
        ∀ d, DepStep tasks v d → d ∈ current :: visited ∨ d ∈ rest := by
      intro v hvm
      rcases List.mem_cons.mp hvm with he | hvm
      · subst he
        refine ⟨hcur, fun d hd => ?_⟩
        rcases hd with ⟨t2, ht2, _⟩
        rw [h2] at ht2
        cases ht2
      · refine ⟨(hinv v hvm).1, fun d hd => ?_⟩
        rcases (hinv v hvm).2 d hd with h | h
        · exact Or.inl (List.mem_cons_of_mem current h)
        · rcases List.mem_cons.mp h with he | h
          · exact Or.inl (he ▸ List.mem_cons_self current visited)
          · exact Or.inr h
    intro x hx
    rcases hx with hx | hx
    · rcases List.mem_cons.mp hx with he | hx
      · exact he ▸ ih hinv2 hfalse current (Or.inr (List.mem_cons_self current visited))
      · exact ih hinv2 hfalse x (Or.inl hx)
    · exact ih hinv2 hfalse x (Or.inr (List.mem_cons_of_mem current hx))

/-- C9.  `hasCycle` (the `wouldCycle` check) returns `true` exactly when
`taskId` is reachable from one of the proposed dependency ids by following
stored tasks' dependency lists transitively; dependency ids with no stored
task are leaves. -/
theorem hasCycle_iff_reachable (tasks : List Task) (taskId : String) (deps : List String) :
    hasCycle tasks taskId deps = true ↔ ∃ d ∈ deps, Reaches tasks d taskId := by
  constructor
  · intro h
    rcases hasCycleAux_sound tasks taskId [] deps.reverse h with ⟨c, hc, hr⟩
    exact ⟨c, List.mem_reverse.mp hc, hr⟩
  · rintro ⟨d, hd, hr⟩
    by_contra hfalse
    have hf : hasCycleAux tasks taskId [] deps.reverse = false := by
      cases hh : hasCycleAux tasks taskId [] deps.reverse with
      | false => rfl
      | true => exact absurd (show hasCycle tasks taskId deps = true from hh) hfalse
    exact hasCycleAux_complete tasks taskId [] deps.reverse (by simp) hf d
      (Or.inl (List.mem_reverse.mpr hd)) hr

/-! ### Concrete witnesses -/

/-- Witness for C1 at a two-task store: blocked while `d2` is in `todo`,
successful once `d2` is `done`. -/
theorem moveTask_dependency_gate_witness :
    (blockersFor exStoreBlocked exA.dependencies ≠ [] ∧
      moveTask exStoreBlocked "A" TaskColumn.doing 7 "n1" =
        (MoveOutcome.err (blockedMsg (blockersFor exStoreBlocked exA.dependencies)) false,
          exStoreBlocked)) ∧
    (moveTask exStoreDone "A" TaskColumn.doing 7 "n1").1.isOk = true :=
  ⟨(moveTask_dependency_gate exStoreBlocked "A" exA 7 "n1" (by decide)).1
      ⟨"d2", by decide, exD2, by decide, by decide⟩,
   (moveTask_dependency_gate exStoreDone "A" exA 7 "n1" (by decide)).2
      (fun depId hmem d hd => by
        have hdep : depId = "d2" := by simpa [exA] using hmem
        subst hdep
        have hd2 : getTask exStoreDone "d2" = some exD2done := by decide
        rw [hd2] at hd
        cases hd
        decide)⟩

/-- Witness for C2 at a singleton store. -/
theorem moveTask_auto_retry_bound_witness :
    (∀ x ∈ ([] : List Task), x.id ≠ exTodoTask.id) ∧
    exTodoTask.dependencies = [] ∧ exTodoTask.retryCount = some 0 ∧
    exTodoTask.maxRetries = some 2 ∧
    (let r1 := moveTask ([] ++ exTodoTask :: []) exTodoTask.id TaskColumn.doing 1 "n1"
     let r2 := moveTask r1.2 exTodoTask.id TaskColumn.failed 2 "n1"
     let r3 := moveTask r2.2 exTodoTask.id TaskColumn.doing 3 "n1"
     let r4 := moveTask r3.2 exTodoTask.id TaskColumn.failed 4 "n1"
     let r5 := moveTask r4.2 exTodoTask.id TaskColumn.doing 5 "n1"
     let r6 := moveTask r5.2 exTodoTask.id TaskColumn.failed 6 "n1"
     r2.1.retriedFlag = true ∧ r4.1.retriedFlag = true ∧ r6.1.retriedFlag = false ∧
     (∃ u2, getTask r2.2 exTodoTask.id = some u2 ∧ u2.retryCount = some 1 ∧
        u2.column = TaskColumn.todo ∧ u2.failedAt = none ∧
        (⟨"system", retryMsg 0 2, 2⟩ : Comment) ∈ u2.comments) ∧
     (∃ u4, getTask r4.2 exTodoTask.id = some u4 ∧ u4.retryCount = some 2 ∧
        u4.column = TaskColumn.todo ∧ u4.failedAt = none ∧
        (⟨"system", retryMsg 1 2, 4⟩ : Comment) ∈ u4.comments) ∧
     (∃ u6, getTask r6.2 exTodoTask.id = some u6 ∧ u6.retryCount = some 2 ∧
        u6.column = TaskColumn.failed ∧
        (⟨"system", exhaustMsg 2, 6⟩ : Comment) ∈ u6.comments)) :=
  ⟨by simp, rfl, rfl, rfl,
   moveTask_auto_retry_bound [] [] exTodoTask 1 2 3 4 5 6 "n1" (by simp) rfl rfl rfl⟩

/-- Witness for C3: the empty store satisfies the invariant, and so does every
state folded from it. -/
theorem create_update_status_eq_column_witness :
    ColumnStatusInv ([] : List Task) ∧
    (ColumnStatusInv
       (([StoreOp.create baseTask,
          StoreOp.update "T" { status := some TaskColumn.doing } 5]).foldl applyOp []) ∧
     (∀ (t : Task) (u : TaskUpdate) (n : Nat) (c : TaskColumn),
        u.column = some c →
          (applyTaskUpdate t u n).column = c ∧ (applyTaskUpdate t u n).status = c) ∧
     (∀ (t : Task) (u : TaskUpdate) (n : Nat) (c : TaskColumn),
        u.column = none → u.status = some c →
          (applyTaskUpdate t u n).column = c ∧ (applyTaskUpdate t u n).status = c)) :=
  ⟨fun t ht => absurd ht (List.not_mem_nil t),
   create_update_status_eq_column []
     [StoreOp.create baseTask, StoreOp.update "T" { status := some TaskColumn.doing } 5]
     (fun t ht => absurd ht (List.not_mem_nil t))⟩

/-- Witness for C4 at a review-requiring task. -/
theorem moveTask_quality_gate_witness :
    moveTask exStoreReview "T" TaskColumn.done 5 "n1" =
      (MoveOutcome.err qualityGateMsg true, exStoreReview) ∧
    (moveTask exStoreReview "T" TaskColumn.review 5 "n1").1.isOk = true ∧
    (moveTask exStoreReview2 "T" TaskColumn.done 5 "n1").1.isOk = true :=
  ⟨(moveTask_quality_gate exStoreReview "T" exReviewTask 5 "n1" (by decide) rfl).1 rfl,
   (moveTask_quality_gate exStoreReview "T" exReviewTask 5 "n1" (by decide) rfl).2.1,
   (moveTask_quality_gate exStoreReview2 "T" exReviewTask2 5 "n1" (by decide) rfl).2.2 rfl⟩

/-- Witness for C5 at a singleton store, times 10, 25, 30, 45. -/
theorem moveTask_duration_metrics_witness :
    (∀ x ∈ ([] : List Task), x.id ≠ exTodoTask.id) ∧
    exTodoTask.dependencies = [] ∧ exTodoTask.requiresReview = false ∧
    exTodoTask.startedAt = none ∧ exTodoTask.nextTask = none ∧
    (∀ x ∈ [] ++ exTodoTask :: [], exTodoTask.id ∉ x.dependencies) ∧ (10 : Nat) ≤ 25 ∧
    (let r1 := moveTask ([] ++ exTodoTask :: []) exTodoTask.id TaskColumn.doing 10 "n1"
     let r2 := moveTask r1.2 exTodoTask.id TaskColumn.done 25 "n1"
     let r3 := moveTask r2.2 exTodoTask.id TaskColumn.doing 30 "n1"
     let r4 := moveTask r3.2 exTodoTask.id TaskColumn.done 45 "n1"
     (∃ u2, getTask r2.2 exTodoTask.id = some u2 ∧ u2.startedAt = some 10 ∧
        u2.completedAt = some 25 ∧ u2.durationMs = some ((25 : Int) - (10 : Int)) ∧
        0 ≤ ((25 : Int) - (10 : Int))) ∧
     (∃ u4, getTask r4.2 exTodoTask.id = some u4 ∧ u4.startedAt = some 10 ∧
        u4.completedAt = some 45 ∧ u4.durationMs = some ((45 : Int) - (10 : Int)))) :=
  ⟨by simp, rfl, rfl, rfl, rfl, by decide, by decide,
   moveTask_duration_metrics [] [] exTodoTask 10 25 30 45 "n1" (by simp) rfl rfl rfl rfl
     (by decide) (by decide)⟩

/-- Witness for C6 at a task carrying the template `{title: "Child",
assignee: "b"}`. -/
theorem moveTask_chaining_witness :
    (∀ x ∈ ([] : List Task), x.id ≠ exChainTask.id) ∧
    (∀ x ∈ [] ++ exChainTask :: [], exChainTask.id ∉ x.dependencies) ∧
    exChainTask.nextTask = some exNext ∧
    (∃ c, moveTask ([] ++ exChainTask :: []) exChainTask.id TaskColumn.done 9 "task-new" =
            (MoveOutcome.ok (doneTask exChainTask 9) false (some c),
              ([] ++ doneTask exChainTask 9 :: []) ++ [c]) ∧
          c.column = TaskColumn.todo ∧ c.status = TaskColumn.todo ∧
          c.parentTaskId = some exChainTask.id ∧ c.title = exNext.title ∧
          c.assignee = exNext.assignee ∧
          (∀ p, exNext.priority = some p → c.priority = p) ∧
          (exNext.priority = none → c.priority = exChainTask.priority) ∧
          (∀ tg, exNext.tags = some tg → c.tags = tg) ∧
          (exNext.tags = none → c.tags = exChainTask.tags) ∧
          (∀ d, exNext.description = some d → d ≠ "" → c.description = d) ∧
          (exNext.description = none → c.description = chainDescMsg (doneTask exChainTask 9)) ∧
          c.comments = [⟨"system", chainSeedMsg (doneTask exChainTask 9), 9⟩]) :=
  ⟨by simp, by decide, rfl,
   (moveTask_chaining [] [] exChainTask 9 "task-new" (by simp)
       (fun h => absurd h (by decide)) (by decide)).1 exNext rfl⟩

/-- Witness for C7's amended claim at the ghost-dependency store. -/
theorem moveTask_missing_deps_ignored_witness :
    blockersFor exStoreGhost exGhostTask.dependencies = [] ∧
    (moveTask exStoreGhost "A" TaskColumn.doing 5 "n1").1.isOk = true :=
  moveTask_missing_deps_ignored exStoreGhost "A" exGhostTask 5 "n1" (by decide)
    (fun depId hmem => by
      have hdep : depId = "ghost" := by simpa [exGhostTask] using hmem
      subst hdep
      decide)

/-- Witness for C10 at a fresh `todo` task failed at time 2. -/
theorem moveTask_retry_returned_vs_stored_witness :
    (∀ x ∈ ([] : List Task), x.id ≠ exTodoTask.id) ∧
    exTodoTask.retryCount.getD 0 < exTodoTask.maxRetries.getD 2 ∧
    (∃ ret stored,
       moveTask ([] ++ exTodoTask :: []) exTodoTask.id TaskColumn.failed 2 "n1" =
         (MoveOutcome.ok ret true none, [] ++ stored :: []) ∧
       ret.column = TaskColumn.failed ∧ ret.failedAt = some 2 ∧
       ret.retryCount = exTodoTask.retryCount ∧
       getTask ([] ++ stored :: []) exTodoTask.id = some stored ∧
       stored.column = TaskColumn.todo ∧
       stored.retryCount = some (exTodoTask.retryCount.getD 0 + 1) ∧
       stored.failedAt = none ∧ ret ≠ stored) :=
  ⟨by simp, by decide,
   moveTask_retry_returned_vs_stored [] [] exTodoTask 2 "n1" (by simp) (by decide)⟩

end AgentBoard
